import Mathlib

/-!
Verification development for the AgentGatePay transaction signing service.

The repository contains two Express handlers:

* `src/tx-signing-service/index.js` — the v3 service. Its endpoint
  `POST /sign-payment` authorizes the caller against a configured owner
  API key, validates the request body, computes a commission split with
  JavaScript `BigInt` arithmetic, and submits two sequential ERC20
  transfers (commission first, then merchant), each followed by a
  confirmation wait of `tx.wait(1, 60000)`.

* `src/unnamed/part_000` — the v1 service. Its endpoint
  `POST /sign-and-send` validates and submits a single transfer.

This file gives a shallow embedding of both handlers. Conventions:

* JavaScript strings are `String`; a possibly-absent header or body
  field is `Option String`; JavaScript truthiness of such a value is
  `truthyOpt` (absent and the empty string are falsy).
* JavaScript `BigInt` values are `Int`; `BigInt` division truncates
  toward zero, embedded as `Int.tdiv`. The configured commission rate
  (`parseFloat(process.env.COMMISSION_RATE)`) is embedded as an exact
  rational; the rounding of IEEE doubles is not modelled.
* The network is abstracted by oracles: the outcome of the optional
  identity-service check inside `verifyOwnerApiKey` is a `Bool`
  parameter, and the chain client is a `ChainOracle` giving the
  outcome of each submit (`contract.transfer`) and each confirmation
  wait (`tx.wait`). Every chain-client interaction the handler
  performs is recorded, in order, in a returned `List ChainCall`.
* A rejected promise / thrown exception is a `JsError` carrying the
  `error.code` field (absent for plain `new Error(...)`) and
  `error.message`; the handler catch blocks are embedded as explicit
  functions on `JsError`.
-/

namespace AgentGatePay

/-- JavaScript truthiness of a possibly-absent string value:
`undefined` and the empty string are falsy, every other string truthy. -/
def truthyOpt : Option String → Bool
  | none => false
  | some s => s != ""

/-- The empty string (used as the `Option.getD` default where the
JavaScript code would see `undefined` only on paths it never takes). -/
def emptyStr : String := ""

/-- Numeric value of a list of decimal digit characters. -/
def digitsToNat (l : List Char) : Nat :=
  l.foldl (fun acc c => acc * 10 + (c.toNat - 48)) 0

/-- ASCII whitespace, as stripped by the JavaScript string-to-number
conversions (their further unicode space classes are not modelled). -/
def isJsSpace (c : Char) : Bool :=
  c = ' ' || c = '\t' || c = '\n' || c = '\r'

/-- Strip leading and trailing whitespace from a character list. -/
def trimChars (l : List Char) : List Char :=
  ((l.dropWhile isJsSpace).reverse.dropWhile isJsSpace).reverse

/-- JavaScript `BigInt(string)` conversion, embedded on its decimal
forms: the argument is trimmed; an empty remainder yields `0n`; an
optional sign followed by decimal digits yields that integer; anything
else throws (`none`). The hexadecimal, octal and binary literal forms
accepted by `BigInt` are not modelled (no claim exercises them). -/
def jsBigInt (s : String) : Option Int :=
  let l := trimChars s.toList
  match l with
  | [] => some 0
  | c :: rest =>
    if c = '-' then
      if !rest.isEmpty && rest.all (·.isDigit) then some (-(digitsToNat rest : Int)) else none
    else if c = '+' then
      if !rest.isEmpty && rest.all (·.isDigit) then some ((digitsToNat rest : Int)) else none
    else if l.all (·.isDigit) then some ((digitsToNat l : Int)) else none

/-- JavaScript `parseInt(string)`: trim, optional sign, then the
longest prefix of decimal digits; `NaN` (here `none`) if that prefix
is empty. The embedding keeps the exact integer value; the float
precision loss of `parseInt` cannot change the sign tests the code
performs on the result. -/
def parseIntJs (s : String) : Option Int :=
  let l := trimChars s.toList
  match l with
  | [] => none
  | c :: rest =>
    if c = '-' then
      let d := rest.takeWhile (·.isDigit)
      if d.isEmpty then none else some (-(digitsToNat d : Int))
    else if c = '+' then
      let d := rest.takeWhile (·.isDigit)
      if d.isEmpty then none else some ((digitsToNat d : Int))
    else
      let d := l.takeWhile (·.isDigit)
      if d.isEmpty then none else some ((digitsToNat d : Int))

/-- Whether the first list is a prefix of the second (Boolean). -/
def isPrefixOfL : List Char → List Char → Bool
  | [], _ => true
  | _ :: _, [] => false
  | a :: as, b :: bs => a == b && isPrefixOfL as bs

/-- Whether the first list occurs as a contiguous sublist of the second. -/
def isInfixOfL (needle : List Char) : List Char → Bool
  | [] => needle.isEmpty
  | b :: bs => isPrefixOfL needle (b :: bs) || isInfixOfL needle bs

/-- Whether `needle` occurs as a substring of `haystack`. -/
def containsSubstr (haystack needle : String) : Bool :=
  isInfixOfL needle.toList haystack.toList

/-! ## The commission split (index.js lines 234-236)

```js
const totalAmountBN = BigInt(total_amount);
const commissionAmountBN =
    totalAmountBN * BigInt(Math.floor(COMMISSION_RATE * 10000)) / BigInt(10000);
const merchantAmountBN = totalAmountBN - commissionAmountBN;
```
-/

/-- `BigInt(Math.floor(COMMISSION_RATE * 10000))`: the configured rate
truncated to whole basis points. -/
def commissionBp (rate : ℚ) : Int := ⌊rate * 10000⌋

/-- `commissionAmountBN`: the total times the truncated basis points,
with `BigInt` division (truncation toward zero). -/
def commissionAmountBN (total : Int) (rate : ℚ) : Int :=
  Int.tdiv (total * commissionBp rate) 10000

/-- `merchantAmountBN = totalAmountBN - commissionAmountBN`. -/
def merchantAmountBN (total : Int) (rate : ℚ) : Int :=
  total - commissionAmountBN total rate

/-- Modelled from the spec wording, for comparison with the code: the
commission the specification promises, `floor(totalAmount * rate)`
computed exactly. -/
def specCommission (total : Int) (rate : ℚ) : Int :=
  ⌊(total : ℚ) * rate⌋

/-! ## Configuration tables (both files share them) -/

/-- Membership in the `RPCS` table: the supported chains. -/
def RPCS_has (chain : String) : Bool :=
  chain == "base" || chain == "ethereum" || chain == "polygon" || chain == "arbitrum"

/-- Membership in the `TOKENS` table: the supported tokens. -/
def TOKENS_has (token : String) : Bool :=
  token == "USDC" || token == "USDT" || token == "DAI"

def usdcBase : String := "0x833589fCD6eDb6E08f4c7C32D4f71b54bdA02913"
def usdcEthereum : String := "0xA0b86991c6218b36c1d19D4a2e9Eb0cE3606eB48"
def usdcPolygon : String := "0x3c499c542cEF5E3811e1192ce70d8cC03d5c3359"
def usdcArbitrum : String := "0xaf88d065e77c8cC2239327C5EDb3A432268e5831"
def usdtEthereum : String := "0xdAC17F958D2ee523a2206206994597C13D831ec7"
def usdtPolygon : String := "0xc2132D05D31c914a87C6611C10748AEb04B58e8F"
def usdtArbitrum : String := "0xFd086bC7CD5C481DCC9C85ebE478A1C0b69FCbb9"
def daiBase : String := "0x50c5725949A6F0c72E6C4a641F24049A917DB0Cb"
def daiEthereum : String := "0x6B175474E89094C44Da98b954EedeAC495271d0F"
def daiPolygon : String := "0x8f3Cf7ad23Cd3CaDbD9735AFf958023239c6A063"
def daiArbitrum : String := "0xDA10009cBd5D07dd0CeCc66161FC93D7c9000da1"

/-- `TOKENS[token].contracts[chain]`: the contract address of a token
on a chain, when configured. USDT has no entry for base. -/
def tokenContract (token chain : String) : Option String :=
  if token == "USDC" then
    if chain == "base" then some usdcBase
    else if chain == "ethereum" then some usdcEthereum
    else if chain == "polygon" then some usdcPolygon
    else if chain == "arbitrum" then some usdcArbitrum
    else none
  else if token == "USDT" then
    if chain == "ethereum" then some usdtEthereum
    else if chain == "polygon" then some usdtPolygon
    else if chain == "arbitrum" then some usdtArbitrum
    else none
  else if token == "DAI" then
    if chain == "base" then some daiBase
    else if chain == "ethereum" then some daiEthereum
    else if chain == "polygon" then some daiPolygon
    else if chain == "arbitrum" then some daiArbitrum
    else none
  else none

/-! ## Chain-client abstraction -/

/-- A thrown JavaScript error as the catch blocks see it: its
`error.code` (absent for plain `new Error(...)`) and `error.message`. -/
structure JsError where
  code : Option String
  message : String
deriving DecidableEq

/-- Outcome of `contract.transfer(recipient, amount)`: a pending
transaction handle with its hash, or a rejected promise. -/
inductive SubmitOutcome where
  | ok (txHash : String)
  | threw (e : JsError)
deriving DecidableEq

/-- Outcome of `tx.wait(1, 60000)`: a receipt with `status`,
`blockNumber` and `gasUsed`, or a rejected promise (a confirmation
timeout rejects with code TIMEOUT). -/
inductive ConfirmOutcome where
  | ok (status blockNumber gasUsed : Nat)
  | threw (e : JsError)
deriving DecidableEq

/-- One chain-client interaction performed by a handler, recorded in
program order. -/
inductive ChainCall where
  | submit (contract recipient amount : String)
  | confirm (txHash : String) (confirmations timeoutMs : Nat)
deriving DecidableEq

/-- Whether a recorded chain call is a transfer submission. -/
def ChainCall.isSubmit : ChainCall → Bool
  | .submit .. => true
  | .confirm .. => false

/-- Number of transfer submissions in a recorded trace. -/
def submitCount (l : List ChainCall) : Nat :=
  (l.filter ChainCall.isSubmit).length

/-- The chain client behaviour visible to `/sign-payment`: outcomes of
the commission submit, its confirmation wait, the merchant submit and
its confirmation wait, in that program order. -/
structure ChainOracle where
  submit1 : SubmitOutcome
  confirm1 : ConfirmOutcome
  submit2 : SubmitOutcome
  confirm2 : ConfirmOutcome

/-! ## The v3 handler: POST /sign-payment (index.js lines 168-344) -/

/-- Process configuration of the v3 service read from the environment:
`OWNER_API_KEY`, `COMMISSION_ADDRESS` (absent or empty count as not
configured, as under JavaScript truthiness) and `COMMISSION_RATE`. -/
structure Config where
  ownerApiKey : Option String
  commissionAddress : Option String
  commissionRate : ℚ

def codeInsufficientFunds : String := "INSUFFICIENT_FUNDS"
def codeTimeout : String := "TIMEOUT"
def codeNonceExpired : String := "NONCE_EXPIRED"
def codeReplacementUnderpriced : String := "REPLACEMENT_UNDERPRICED"
def msgCommissionFailed : String := "Commission transaction failed on-chain"
def msgMerchantFailed : String := "Merchant transaction failed on-chain"
def msgRequiredFields : String := "Required fields: merchant_address, total_amount, token, chain"
def msgCannotConvertPre : String := "Cannot convert "
def msgCannotConvertPost : String := " to a BigInt"

/-- `verifyOwnerApiKey` (index.js lines 83-114). `identityOk` abstracts
the `fetch` to the identity service: `true` iff that call succeeds
with `response.ok`. The fetch is only reached when a key is configured
and matches. -/
def verifyOwnerApiKey (ownerApiKey : Option String) (identityOk : Bool) (apiKey : String) : Bool :=
  if truthyOpt ownerApiKey = false then true
  else if apiKey ≠ ownerApiKey.getD emptyStr then false
  else identityOk

/-- The client-visible response of `/sign-payment`, one constructor
per `res.status(...).json(...)` site of the handler. -/
inductive Response where
  | unauthorized
  | forbidden
  | invalidRequest
  | unsupportedChain (chain : String)
  | unsupportedToken (token : String)
  | tokenNotOnChain (token chain : String)
  | commissionNotConfigured
  | insufficientFunds
  | paymentFailed (message : String)
  | paid (txHash txHashCommission : String) (blockNumber blockNumberCommission : Nat)
      (total_amount merchant_amount commission_amount : String) (gasUsed : Nat)
deriving DecidableEq

/-- HTTP status code of each response site. -/
def Response.status : Response → Nat
  | .unauthorized => 401
  | .forbidden => 403
  | .invalidRequest => 400
  | .unsupportedChain _ => 400
  | .unsupportedToken _ => 400
  | .tokenNotOnChain _ _ => 400
  | .commissionNotConfigured => 500
  | .insufficientFunds => 400
  | .paymentFailed _ => 500
  | .paid .. => 200

/-- The `error` field of each error response body. -/
def Response.errorLabel : Response → Option String
  | .unauthorized => some ("Unauthorized")
  | .forbidden => some ("Forbidden")
  | .invalidRequest => some ("Invalid request")
  | .unsupportedChain c => some (("Unsupported chain: ") ++ c)
  | .unsupportedToken t => some (("Unsupported token: ") ++ t)
  | .tokenNotOnChain t c => some (t ++ (" not supported on ") ++ c)
  | .commissionNotConfigured => some ("Commission address not configured")
  | .insufficientFunds => some ("Insufficient funds")
  | .paymentFailed _ => some ("Payment failed")
  | .paid .. => none

/-- The `message` field of each response body that has one. -/
def Response.message : Response → Option String
  | .unauthorized => some ("x-api-key header required (owner API key only)")
  | .forbidden => some ("This signing service only accepts requests from the owner. Your API key is not authorized.")
  | .invalidRequest => some msgRequiredFields
  | .commissionNotConfigured => some ("Set COMMISSION_ADDRESS environment variable")
  | .insufficientFunds => some ("Gateway wallet does not have enough tokens or ETH for gas")
  | .paymentFailed m => some m
  | _ => none

/-- The catch block of `/sign-payment` (index.js lines 329-343): only
`INSUFFICIENT_FUNDS` is mapped to a distinct 400; every other thrown
error becomes the generic 500 `Payment failed`. -/
def signPaymentCatch (e : JsError) : Response :=
  if e.code = some codeInsufficientFunds then Response.insufficientFunds
  else Response.paymentFailed e.message

/-- Steps 6-10 of `/sign-payment` (index.js lines 245-327): submit the
commission transfer, wait for its confirmation, require receipt status
1, then submit the merchant transfer, wait, require status 1, and
build the success payload. Thrown errors fall to `signPaymentCatch`.
The returned list records the chain-client calls in program order. -/
def signPaymentTx (tokenAddress commissionAddress merchant_address : String)
    (totalAmountBN : Int) (rate : ℚ) (total_amount : String)
    (o : ChainOracle) : Response × List ChainCall :=
  let commissionAmount := toString (commissionAmountBN totalAmountBN rate)
  let merchantAmount := toString (merchantAmountBN totalAmountBN rate)
  let call1 := ChainCall.submit tokenAddress commissionAddress commissionAmount
  match o.submit1 with
  | SubmitOutcome.threw e => (signPaymentCatch e, [call1])
  | SubmitOutcome.ok tx1 =>
    let wait1 := ChainCall.confirm tx1 1 60000
    match o.confirm1 with
    | ConfirmOutcome.threw e => (signPaymentCatch e, [call1, wait1])
    | ConfirmOutcome.ok status1 bn1 gas1 =>
      if status1 ≠ 1 then
        (signPaymentCatch ⟨none, msgCommissionFailed⟩, [call1, wait1])
      else
        let call2 := ChainCall.submit tokenAddress merchant_address merchantAmount
        match o.submit2 with
        | SubmitOutcome.threw e => (signPaymentCatch e, [call1, wait1, call2])
        | SubmitOutcome.ok tx2 =>
          let wait2 := ChainCall.confirm tx2 1 60000
          match o.confirm2 with
          | ConfirmOutcome.threw e => (signPaymentCatch e, [call1, wait1, call2, wait2])
          | ConfirmOutcome.ok status2 bn2 gas2 =>
            if status2 ≠ 1 then
              (signPaymentCatch ⟨none, msgMerchantFailed⟩, [call1, wait1, call2, wait2])
            else
              (Response.paid tx2 tx1 bn2 bn1 total_amount merchantAmount commissionAmount
                (gas1 + gas2), [call1, wait1, call2, wait2])

/-- A `/sign-payment` request: the `x-api-key` header and the four
body fields, each possibly absent. -/
structure SignPaymentRequest where
  xApiKey : Option String
  merchant_address : Option String
  total_amount : Option String
  token : Option String
  chain : Option String

/-- `if (!merchant_address || !total_amount || !token || !chain)`. -/
def fieldsPresent (req : SignPaymentRequest) : Bool :=
  truthyOpt req.merchant_address && truthyOpt req.total_amount &&
    truthyOpt req.token && truthyOpt req.chain

/-- The full `/sign-payment` handler (index.js lines 168-344): header
presence, owner authorization, field presence, chain, token and
token-on-chain membership, commission-address configuration, `BigInt`
conversion of the amount (whose throw on a malformed string falls to
the catch block before any chain call), then the two transfer legs. -/
def signPayment (cfg : Config) (identityOk : Bool) (o : ChainOracle)
    (req : SignPaymentRequest) : Response × List ChainCall :=
  if truthyOpt req.xApiKey = false then (Response.unauthorized, [])
  else if verifyOwnerApiKey cfg.ownerApiKey identityOk (req.xApiKey.getD emptyStr) = false then
    (Response.forbidden, [])
  else if fieldsPresent req = false then (Response.invalidRequest, [])
  else
    let chain := req.chain.getD emptyStr
    let token := req.token.getD emptyStr
    if RPCS_has chain = false then (Response.unsupportedChain chain, [])
    else if TOKENS_has token = false then (Response.unsupportedToken token, [])
    else
      match tokenContract token chain with
      | none => (Response.tokenNotOnChain token chain, [])
      | some tokenAddress =>
        if truthyOpt cfg.commissionAddress = false then (Response.commissionNotConfigured, [])
        else
          match jsBigInt (req.total_amount.getD emptyStr) with
          | none =>
            (Response.paymentFailed
              (msgCannotConvertPre ++ req.total_amount.getD emptyStr ++ msgCannotConvertPost), [])
          | some totalAmountBN =>
            signPaymentTx tokenAddress (cfg.commissionAddress.getD emptyStr)
              (req.merchant_address.getD emptyStr) totalAmountBN cfg.commissionRate
              (req.total_amount.getD emptyStr) o

/-! ## The v1 handler: POST /sign-and-send (part_000 lines 122-262) -/

/-- Process configuration of the v1 service: `PRIVATE_KEY` and the
optional `AUTH_TOKEN`. -/
structure SASConfig where
  privateKey : Option String
  authToken : Option String

/-- The chain client behaviour visible to `/sign-and-send`: the single
transfer submission and its confirmation wait. -/
structure SASOracle where
  submit : SubmitOutcome
  confirm : ConfirmOutcome

/-- A `/sign-and-send` request: the `authorization` header and the
four body fields (`to` is a reserved word in Lean, embedded as
`toAddress`). -/
structure SignAndSendRequest where
  authorization : Option String
  toAddress : Option String
  amount : Option String
  token : Option String
  chain : Option String

/-- The client-visible response of `/sign-and-send`, one constructor
per `res.status(...).json(...)` site of the handler. -/
inductive SASResponse where
  | notConfigured
  | unauthorized
  | missingParams
  | unsupportedChain (chain : String)
  | unsupportedToken (token : String)
  | tokenNotOnChain (token chain : String)
  | invalidAmount
  | insufficientFunds
  | txConflict (message : String)
  | txTimeout (message : String)
  | txFailed (message : String) (code : Option String)
  | sent (txHash : String) (blockNumber gasUsed : Nat)
deriving DecidableEq

/-- HTTP status code of each `/sign-and-send` response site. The
confirmation-timeout outcome has its own code, 408. -/
def SASResponse.status : SASResponse → Nat
  | .notConfigured => 500
  | .unauthorized => 401
  | .missingParams => 400
  | .unsupportedChain _ => 400
  | .unsupportedToken _ => 400
  | .tokenNotOnChain _ _ => 400
  | .invalidAmount => 400
  | .insufficientFunds => 400
  | .txConflict _ => 400
  | .txTimeout _ => 408
  | .txFailed _ _ => 500
  | .sent .. => 200

/-- The `error` field of each `/sign-and-send` error response. -/
def SASResponse.errorLabel : SASResponse → Option String
  | .notConfigured => some ("Service not configured")
  | .unauthorized => some ("Unauthorized")
  | .missingParams => some ("Missing required parameters")
  | .unsupportedChain c => some (("Unsupported chain: ") ++ c)
  | .unsupportedToken t => some (("Unsupported token: ") ++ t)
  | .tokenNotOnChain t c => some (t ++ (" not supported on ") ++ c)
  | .invalidAmount => some ("Invalid amount")
  | .insufficientFunds => some ("Insufficient funds")
  | .txConflict _ => some ("Transaction conflict")
  | .txTimeout _ => some ("Transaction timeout")
  | .txFailed _ _ => some ("Transaction failed")
  | .sent .. => none

/-- The catch block of `/sign-and-send` (part_000 lines 228-261):
`INSUFFICIENT_FUNDS`, nonce conflicts and `TIMEOUT` each get a
distinct response; `TIMEOUT` maps to 408 `Transaction timeout`. -/
def signAndSendCatch (e : JsError) : SASResponse :=
  if e.code = some codeInsufficientFunds then SASResponse.insufficientFunds
  else if e.code = some codeNonceExpired ∨ e.code = some codeReplacementUnderpriced then
    SASResponse.txConflict e.message
  else if e.code = some codeTimeout then SASResponse.txTimeout e.message
  else SASResponse.txFailed e.message e.code

/-- The single transfer of `/sign-and-send` (part_000 lines 196-226):
submit, wait for confirmation, and report success. The receipt status
is logged but not checked. -/
def signAndSendTx (tokenAddress toAddress : String) (amountInt : Int)
    (o : SASOracle) : SASResponse × List ChainCall :=
  let call1 := ChainCall.submit tokenAddress toAddress (toString amountInt)
  match o.submit with
  | SubmitOutcome.threw e => (signAndSendCatch e, [call1])
  | SubmitOutcome.ok txh =>
    let wait1 := ChainCall.confirm txh 1 60000
    match o.confirm with
    | ConfirmOutcome.threw e => (signAndSendCatch e, [call1, wait1])
    | ConfirmOutcome.ok _ bn gas => (SASResponse.sent txh bn gas, [call1, wait1])

/-- Remove the first occurrence of `pat` from `s`, as the JavaScript
`String.prototype.replace` with a string pattern and empty replacement
does in `req.headers.authorization?.replace(..., ...)`. -/
def replaceFirst (s pat : String) : String :=
  match s.splitOn pat with
  | [] => s
  | [x] => x
  | x :: y :: rest => x ++ y ++ rest.foldl (fun acc z => acc ++ pat ++ z) emptyStr

def bearerPat : String := "Bearer "

/-- `if (!to || !amount || !token || !chain)`. -/
def sasFieldsPresent (req : SignAndSendRequest) : Bool :=
  truthyOpt req.toAddress && truthyOpt req.amount && truthyOpt req.token && truthyOpt req.chain

/-- The full `/sign-and-send` handler (part_000 lines 122-262):
configuration check, optional bearer-token authentication, field
presence, chain, token and token-on-chain membership, then the
`parseInt` amount check (rejecting `NaN` and non-positive values with
400 `Invalid amount` before any chain call), then the transfer. -/
def signAndSend (cfg : SASConfig) (o : SASOracle)
    (req : SignAndSendRequest) : SASResponse × List ChainCall :=
  if truthyOpt cfg.privateKey = false then (SASResponse.notConfigured, [])
  else if truthyOpt cfg.authToken = true ∧
      req.authorization.map (fun s => replaceFirst s bearerPat) ≠ some (cfg.authToken.getD emptyStr) then
    (SASResponse.unauthorized, [])
  else if sasFieldsPresent req = false then (SASResponse.missingParams, [])
  else
    let chain := req.chain.getD emptyStr
    let token := req.token.getD emptyStr
    if RPCS_has chain = false then (SASResponse.unsupportedChain chain, [])
    else if TOKENS_has token = false then (SASResponse.unsupportedToken token, [])
    else
      match tokenContract token chain with
      | none => (SASResponse.tokenNotOnChain token chain, [])
      | some tokenAddress =>
        match parseIntJs (req.amount.getD emptyStr) with
        | none => (SASResponse.invalidAmount, [])
        | some n =>
          if n ≤ 0 then (SASResponse.invalidAmount, [])
          else signAndSendTx tokenAddress (req.toAddress.getD emptyStr) n o

/-! ## Concrete inputs used by witnesses and counterexamples -/

def strUSDC : String := "USDC"
def strBase : String := "base"
def ownerKeyX : String := "owner-key"
def otherKeyX : String := "other-key"
def commAddrX : String := "0xC0FFEE00000000000000000000000000000000AA"
def merchAddrX : String := "0xBEEF0000000000000000000000000000000000BB"
def badAmountX : String := "abc"
def unsupportedChainX : String := "solana"
def msgTimeoutX : String := "timed out after 60000 ms"
def hashCommissionC4 : String := "0xc0ffee0000000000000000000000000000000000000000000000000000000001"

/-- A configuration with an owner key, a commission address and the
default rate. -/
def cfgX : Config := ⟨some ownerKeyX, some commAddrX, 1 / 200⟩

/-- A chain oracle on which both legs would succeed. -/
def oracleOkX : ChainOracle :=
  ⟨SubmitOutcome.ok hashCommissionC4, ConfirmOutcome.ok 1 5 21000,
    SubmitOutcome.ok emptyStr, ConfirmOutcome.ok 1 6 21000⟩

/-- A chain oracle whose commission confirmation wait rejects with
code TIMEOUT. -/
def oracleTimeoutX : ChainOracle :=
  ⟨SubmitOutcome.ok hashCommissionC4, ConfirmOutcome.threw ⟨some codeTimeout, msgTimeoutX⟩,
    SubmitOutcome.ok emptyStr, ConfirmOutcome.ok 1 6 21000⟩

/-- A chain oracle whose commission receipt reports a definite
on-chain failure (status 0). -/
def oracleRevertedX : ChainOracle :=
  ⟨SubmitOutcome.ok hashCommissionC4, ConfirmOutcome.ok 0 5 21000,
    SubmitOutcome.ok emptyStr, ConfirmOutcome.ok 1 6 21000⟩

/-- A well-formed request whose `total_amount` is the unparsable
string `abc`. -/
def reqBadAmountX : SignPaymentRequest :=
  ⟨some ownerKeyX, some merchAddrX, some badAmountX, some strUSDC, some strBase⟩

/-- A request missing `merchant_address` while naming the unsupported
chain `solana`. -/
def reqMissingFieldX : SignPaymentRequest :=
  ⟨some ownerKeyX, none, some badAmountX, some strUSDC, some unsupportedChainX⟩

/-- A well-formed request presented with a non-owner API key. -/
def reqWrongKeyX : SignPaymentRequest :=
  ⟨some otherKeyX, some merchAddrX, some badAmountX, some strUSDC, some strBase⟩

/-- A request with no `x-api-key` header at all. -/
def reqNoKeyX : SignPaymentRequest :=
  ⟨none, some merchAddrX, some badAmountX, some strUSDC, some strBase⟩

/-- A v1 configuration with a private key and no auth token. -/
def sasCfgX : SASConfig := ⟨some ownerKeyX, none⟩

/-- A v1 oracle on which the transfer would succeed. -/
def sasOracleX : SASOracle := ⟨SubmitOutcome.ok emptyStr, ConfirmOutcome.ok 1 5 21000⟩

/-- A v1 request whose `amount` is the unparsable string `abc`. -/
def sasReqBadAmountX : SignAndSendRequest :=
  ⟨none, some merchAddrX, some badAmountX, some strUSDC, some strBase⟩

/-! ## Theorems -/

/-- Helper: the `/sign-payment` catch block never produces the
`Forbidden` response. -/
theorem signPaymentCatch_ne_forbidden (e : JsError) :
    signPaymentCatch e ≠ Response.forbidden := by
  unfold signPaymentCatch
  split <;> simp

/-- Helper: the two-transfer stage of `/sign-payment` never produces
the `Forbidden` response. -/
theorem signPaymentTx_fst_ne_forbidden
    (tokenAddress commissionAddress merchant_address : String)
    (totalAmountBN : Int) (rate : ℚ) (total_amount : String) (o : ChainOracle) :
    (signPaymentTx tokenAddress commissionAddress merchant_address
      totalAmountBN rate total_amount o).1 ≠ Response.forbidden := by
  obtain ⟨s1, c1, s2, c2⟩ := o
  cases s1 with
  | threw e => simpa [signPaymentTx] using signPaymentCatch_ne_forbidden e
  | ok tx1 =>
    cases c1 with
    | threw e => simpa [signPaymentTx] using signPaymentCatch_ne_forbidden e
    | ok st bn g =>
      by_cases hst : st = 1
      · subst hst
        cases s2 with
        | threw e => simpa [signPaymentTx] using signPaymentCatch_ne_forbidden e
        | ok tx2 =>
          cases c2 with
          | threw e => simpa [signPaymentTx] using signPaymentCatch_ne_forbidden e
          | ok st2 bn2 g2 =>
            by_cases hst2 : st2 = 1 <;>
              simp [signPaymentTx, hst2, signPaymentCatch_ne_forbidden]
      · simpa [signPaymentTx, hst] using
          signPaymentCatch_ne_forbidden ⟨none, msgCommissionFailed⟩

/-- Helper: the TIMEOUT code differs from the codes the catch blocks
test before it. -/
theorem codeTimeout_ne_insufficient : codeTimeout ≠ codeInsufficientFunds := by decide

theorem codeTimeout_ne_nonce : codeTimeout ≠ codeNonceExpired := by decide

theorem codeTimeout_ne_replacement : codeTimeout ≠ codeReplacementUnderpriced := by decide

/-- Helper: the truncated basis points of a rate in `(0,1)` lie in
`[0, 9999]`. -/
theorem commissionBp_bounds (rate : ℚ) (h0 : 0 < rate) (h1 : rate < 1) :
    0 ≤ commissionBp rate ∧ commissionBp rate ≤ 9999 := by
  unfold commissionBp
  constructor
  · exact Int.floor_nonneg.mpr (by positivity)
  · have hlt : rate * 10000 < 10000 := by nlinarith
    have : ⌊rate * 10000⌋ < (10000 : ℤ) := Int.floor_lt.mpr (by exact_mod_cast hlt)
    omega

/-- Claim C2: for every arbitrary-precision unsigned total amount and
every configured rate in `(0,1)`, the split computed by the
`/sign-payment` handler satisfies
`commissionAmount + merchantAmount = totalAmount` exactly, with both
parts nonnegative. -/
theorem split_exact_and_nonneg (total : Int) (rate : ℚ)
    (htot : 0 ≤ total) (h0 : 0 < rate) (h1 : rate < 1) :
    commissionAmountBN total rate + merchantAmountBN total rate = total ∧
    0 ≤ commissionAmountBN total rate ∧ 0 ≤ merchantAmountBN total rate := by
  obtain ⟨hbp0, hbp1⟩ := commissionBp_bounds rate h0 h1
  have hnum : 0 ≤ total * commissionBp rate := mul_nonneg htot hbp0
  have hcomm0 : 0 ≤ commissionAmountBN total rate :=
    Int.tdiv_nonneg hnum (by norm_num)
  have hle : commissionAmountBN total rate ≤ total := by
    unfold commissionAmountBN
    rw [Int.tdiv_eq_ediv hnum (by norm_num)]
    calc total * commissionBp rate / 10000
        ≤ total * 10000 / 10000 := by
          exact Int.ediv_le_ediv (by norm_num)
            (mul_le_mul_of_nonneg_left (by omega) htot)
      _ = total := Int.mul_ediv_cancel total (by norm_num)
  refine ⟨?_, hcomm0, ?_⟩
  · unfold merchantAmountBN; ring
  · unfold merchantAmountBN; omega

/-- Witness for `split_exact_and_nonneg` at a total exceeding `2^63`
and the default rate `0.005`. -/
theorem split_exact_and_nonneg_witness :
    0 ≤ (18446744073709551617 : Int) ∧ 0 < (1 / 200 : ℚ) ∧ (1 / 200 : ℚ) < 1 ∧
    (commissionAmountBN 18446744073709551617 (1 / 200) +
        merchantAmountBN 18446744073709551617 (1 / 200) = 18446744073709551617 ∧
      0 ≤ commissionAmountBN 18446744073709551617 (1 / 200) ∧
      0 ≤ merchantAmountBN 18446744073709551617 (1 / 200)) :=
  ⟨by norm_num, by norm_num, by norm_num,
    split_exact_and_nonneg 18446744073709551617 (1 / 200)
      (by norm_num) (by norm_num) (by norm_num)⟩

/-- Counterexample to claim C3: at `totalAmount = 100000` and
`rate = 3/20000 = 0.00015` (a rate in `(0,1)`), the code computes
commission `100000 * ⌊1.5⌋ / 10000 = 10`, while
`floor(totalAmount * rate) = 15`. -/
theorem commission_deviates_from_spec_floor :
    commissionAmountBN 100000 (3 / 20000) ≠ specCommission 100000 (3 / 20000) ∧
    commissionAmountBN 100000 (3 / 20000) = 10 ∧
    specCommission 100000 (3 / 20000) = 15 := by
  have hbp : commissionBp (3 / 20000) = 1 := by
    unfold commissionBp
    have h : (3 / 20000 : ℚ) * 10000 = 3 / 2 := by norm_num
    rw [h]
    rw [Int.floor_eq_iff]
    constructor <;> norm_num
  have h1 : commissionAmountBN 100000 (3 / 20000) = 10 := by
    unfold commissionAmountBN
    rw [hbp]
    decide
  have h2 : specCommission 100000 (3 / 20000) = 15 := by
    unfold specCommission
    have h : ((100000 : Int) : ℚ) * (3 / 20000) = 15 := by norm_num
    rw [h]
    rw [Int.floor_eq_iff]
    constructor <;> norm_num
  exact ⟨by omega, h1, h2⟩

/-- Claim C3 as amended: the code first truncates the configured rate
to a whole number of basis points. When the rate is itself a whole
number of basis points, `rate = k / 10000` with `0 < k < 10000`, the
commission computed by the handler equals `floor(totalAmount * rate)`,
for every nonnegative big-integer total amount. -/
theorem commission_floor_at_whole_basis_points (total : Int) (k : Int)
    (htot : 0 ≤ total) (hk0 : 0 < k) (hk1 : k < 10000) :
    commissionAmountBN total ((k : ℚ) / 10000) =
      specCommission total ((k : ℚ) / 10000) := by
  have hbp : commissionBp ((k : ℚ) / 10000) = k := by
    unfold commissionBp
    have : ((k : ℚ) / 10000) * 10000 = (k : ℚ) := by field_simp
    rw [this, Int.floor_intCast]
  have hnum : 0 ≤ total * k := mul_nonneg htot (by omega)
  have hlhs : commissionAmountBN total ((k : ℚ) / 10000) = total * k / 10000 := by
    unfold commissionAmountBN
    rw [hbp, Int.tdiv_eq_ediv hnum (by norm_num)]
  have hrhs : specCommission total ((k : ℚ) / 10000) = total * k / 10000 := by
    unfold specCommission
    have hcast : (total : ℚ) * ((k : ℚ) / 10000) =
        ((total * k : Int) : ℚ) / ((10000 : Nat) : ℚ) := by
      push_cast; ring
    rw [hcast, Rat.floor_intCast_div_natCast]
    norm_num
  rw [hlhs, hrhs]

/-- Witness for `commission_floor_at_whole_basis_points` at a total
exceeding `2^63` and `k = 50` basis points (the default rate). -/
theorem commission_floor_at_whole_basis_points_witness :
    0 ≤ (18446744073709551617 : Int) ∧ 0 < (50 : Int) ∧ (50 : Int) < 10000 ∧
    commissionAmountBN 18446744073709551617 ((50 : Int) / 10000) =
      specCommission 18446744073709551617 ((50 : Int) / 10000) :=
  ⟨by norm_num, by norm_num, by norm_num,
    commission_floor_at_whole_basis_points 18446744073709551617 50
      (by norm_num) (by norm_num) (by norm_num)⟩

/-- Claim C1: in the two-leg flow of `/sign-payment`, the merchant
leg is submitted only after the commission leg was submitted and its
confirmation receipt reported status 1: whenever the recorded trace
holds two submissions, the commission confirmation succeeded and the
trace begins with the commission submission, its confirmation wait,
and only then the merchant submission. And if the commission receipt
reports a failure status, the chain client receives exactly one
submission. -/
theorem sign_payment_two_leg_sequencing
    (tokenAddress commissionAddress merchant_address : String)
    (totalAmountBN : Int) (rate : ℚ) (total_amount : String) (o : ChainOracle) :
    (submitCount (signPaymentTx tokenAddress commissionAddress merchant_address
        totalAmountBN rate total_amount o).2 = 2 →
      ∃ tx1 bn g rest,
        o.submit1 = SubmitOutcome.ok tx1 ∧ o.confirm1 = ConfirmOutcome.ok 1 bn g ∧
        (signPaymentTx tokenAddress commissionAddress merchant_address
            totalAmountBN rate total_amount o).2 =
          ChainCall.submit tokenAddress commissionAddress
              (toString (commissionAmountBN totalAmountBN rate)) ::
            ChainCall.confirm tx1 1 60000 ::
            ChainCall.submit tokenAddress merchant_address
              (toString (merchantAmountBN totalAmountBN rate)) :: rest) ∧
    (∀ tx1 s bn g, o.submit1 = SubmitOutcome.ok tx1 →
      o.confirm1 = ConfirmOutcome.ok s bn g → s ≠ 1 →
      submitCount (signPaymentTx tokenAddress commissionAddress merchant_address
        totalAmountBN rate total_amount o).2 = 1) := by
  obtain ⟨s1, c1, s2, c2⟩ := o
  constructor
  · intro h2
    cases s1 with
    | threw e => simp [signPaymentTx, submitCount, ChainCall.isSubmit] at h2
    | ok tx1 =>
      cases c1 with
      | threw e => simp [signPaymentTx, submitCount, ChainCall.isSubmit] at h2
      | ok st bn g =>
        by_cases hst : st = 1
        · subst hst
          cases s2 with
          | threw e => exact ⟨tx1, bn, g, [], rfl, rfl, by simp [signPaymentTx]⟩
          | ok tx2 =>
            cases c2 with
            | threw e =>
              exact ⟨tx1, bn, g, [ChainCall.confirm tx2 1 60000], rfl, rfl,
                by simp [signPaymentTx]⟩
            | ok st2 bn2 g2 =>
              refine ⟨tx1, bn, g, [ChainCall.confirm tx2 1 60000], rfl, rfl, ?_⟩
              by_cases hst2 : st2 = 1 <;> simp [signPaymentTx, hst2]
        · exfalso
          simp [signPaymentTx, submitCount, ChainCall.isSubmit, hst] at h2
  · intro tx1 s bn g h1 hc hs
    cases h1
    cases hc
    simp [signPaymentTx, submitCount, ChainCall.isSubmit, hs]

/-- Witness for `sign_payment_two_leg_sequencing`: with a commission
receipt of status 0, the trace holds exactly one submission. -/
theorem sign_payment_two_leg_sequencing_witness :
    submitCount (signPaymentTx usdcBase daiBase usdcEthereum 1000000 (1 / 200) emptyStr
      ⟨SubmitOutcome.ok emptyStr, ConfirmOutcome.ok 0 5 21000,
        SubmitOutcome.ok emptyStr, ConfirmOutcome.ok 1 6 21000⟩).2 = 1 :=
  (sign_payment_two_leg_sequencing usdcBase daiBase usdcEthereum 1000000 (1 / 200) emptyStr
    ⟨SubmitOutcome.ok emptyStr, ConfirmOutcome.ok 0 5 21000,
      SubmitOutcome.ok emptyStr, ConfirmOutcome.ok 1 6 21000⟩).2
    emptyStr 0 5 21000 rfl rfl (by decide)

/-- Counterexample to claim C4: with the commission leg confirmed
under hash `hashCommissionC4` and the merchant receipt reporting
status 0, the response is the fixed 500 `Payment failed` with message
`Merchant transaction failed on-chain`; the commission transaction
identifier does not occur anywhere in it. -/
theorem merchant_failed_response_lacks_commission_hash :
    (signPaymentTx usdcBase daiBase usdcEthereum 1000000 (1 / 200) emptyStr
        ⟨SubmitOutcome.ok hashCommissionC4, ConfirmOutcome.ok 1 5 21000,
          SubmitOutcome.ok emptyStr, ConfirmOutcome.ok 0 6 21000⟩).1 =
      Response.paymentFailed msgMerchantFailed ∧
    containsSubstr msgMerchantFailed hashCommissionC4 = false ∧
    (Response.paymentFailed msgMerchantFailed).errorLabel = some ("Payment failed") ∧
    (Response.paymentFailed msgMerchantFailed).message = some msgMerchantFailed := by
  refine ⟨?_, ?_, rfl, rfl⟩
  · simp [signPaymentTx, signPaymentCatch, codeInsufficientFunds]
  · decide

/-- Claim C4 as amended: whenever the commission leg confirmed with
status 1 and the merchant receipt then reports a failure status, the
client receives the 500 `Payment failed` response whose message is the
fixed string `Merchant transaction failed on-chain`; the response does
not depend on the commission transaction hash, so it cannot include
that identifier. -/
theorem merchant_failed_generic_error
    (tokenAddress commissionAddress merchant_address : String)
    (totalAmountBN : Int) (rate : ℚ) (total_amount : String) (o : ChainOracle)
    (tx1 tx2 : String) (bn1 g1 s2 bn2 g2 : Nat)
    (h1 : o.submit1 = SubmitOutcome.ok tx1)
    (hc1 : o.confirm1 = ConfirmOutcome.ok 1 bn1 g1)
    (h2 : o.submit2 = SubmitOutcome.ok tx2)
    (hc2 : o.confirm2 = ConfirmOutcome.ok s2 bn2 g2) (hs : s2 ≠ 1) :
    (signPaymentTx tokenAddress commissionAddress merchant_address
        totalAmountBN rate total_amount o).1 =
      Response.paymentFailed msgMerchantFailed ∧
    Response.status (Response.paymentFailed msgMerchantFailed) = 500 := by
  obtain ⟨s1, c1, s2o, c2o⟩ := o
  simp only at h1 hc1 h2 hc2
  subst h1; subst hc1; subst h2; subst hc2
  refine ⟨?_, rfl⟩
  simp [signPaymentTx, signPaymentCatch, codeInsufficientFunds, hs]

/-- Witness for `merchant_failed_generic_error`. -/
theorem merchant_failed_generic_error_witness :
    (signPaymentTx usdcBase daiBase usdcEthereum 2000000 (1 / 200) emptyStr
        ⟨SubmitOutcome.ok hashCommissionC4, ConfirmOutcome.ok 1 7 21000,
          SubmitOutcome.ok emptyStr, ConfirmOutcome.ok 0 8 21000⟩).1 =
      Response.paymentFailed msgMerchantFailed ∧
    Response.status (Response.paymentFailed msgMerchantFailed) = 500 :=
  merchant_failed_generic_error usdcBase daiBase usdcEthereum 2000000 (1 / 200) emptyStr
    ⟨SubmitOutcome.ok hashCommissionC4, ConfirmOutcome.ok 1 7 21000,
      SubmitOutcome.ok emptyStr, ConfirmOutcome.ok 0 8 21000⟩
    hashCommissionC4 emptyStr 7 21000 0 8 21000 rfl rfl rfl rfl (by decide)

/-- Counterexample to claim C5: a fully authorized, otherwise valid
request whose `total_amount` is `abc` is not rejected with a 400
validation error; the `BigInt` conversion throws and the generic
catch block answers 500 `Payment failed` (before any chain call). -/
theorem malformed_amount_gives_500 :
    signPayment cfgX true oracleOkX reqBadAmountX =
      (Response.paymentFailed (msgCannotConvertPre ++ badAmountX ++ msgCannotConvertPost), []) ∧
    Response.status
      (Response.paymentFailed (msgCannotConvertPre ++ badAmountX ++ msgCannotConvertPost)) = 500 := by
  constructor <;> decide

/-- Claim C5 as amended: `/sign-payment` performs no amount-format
validation: on any request passing authorization and the earlier
checks whose `total_amount` fails `BigInt` parsing, the handler
answers 500 `Payment failed` (not a 400 validation error), still
before any chain-client call. The older `/sign-and-send` endpoint
does validate: when `parseInt` of the amount is `NaN` or nonpositive
it answers 400 `Invalid amount` with no chain-client call. -/
theorem amount_validation_paths (cfg : Config) (identityOk : Bool)
    (o : ChainOracle) (req : SignPaymentRequest)
    (hkey : truthyOpt req.xApiKey = true)
    (hver : verifyOwnerApiKey cfg.ownerApiKey identityOk (req.xApiKey.getD emptyStr) = true)
    (hfields : fieldsPresent req = true)
    (hchain : RPCS_has (req.chain.getD emptyStr) = true)
    (htoken : TOKENS_has (req.token.getD emptyStr) = true)
    (hcontract : (tokenContract (req.token.getD emptyStr) (req.chain.getD emptyStr)).isSome = true)
    (hcomm : truthyOpt cfg.commissionAddress = true)
    (hbig : jsBigInt (req.total_amount.getD emptyStr) = none) :
    (signPayment cfg identityOk o req =
      (Response.paymentFailed
        (msgCannotConvertPre ++ req.total_amount.getD emptyStr ++ msgCannotConvertPost), []) ∧
      Response.status
        (Response.paymentFailed
          (msgCannotConvertPre ++ req.total_amount.getD emptyStr ++ msgCannotConvertPost)) = 500) ∧
    (∀ (scfg : SASConfig) (so : SASOracle) (sreq : SignAndSendRequest),
      truthyOpt scfg.privateKey = true →
      ¬(truthyOpt scfg.authToken = true ∧
        sreq.authorization.map (fun s => replaceFirst s bearerPat) ≠
          some (scfg.authToken.getD emptyStr)) →
      sasFieldsPresent sreq = true →
      RPCS_has (sreq.chain.getD emptyStr) = true →
      TOKENS_has (sreq.token.getD emptyStr) = true →
      (tokenContract (sreq.token.getD emptyStr) (sreq.chain.getD emptyStr)).isSome = true →
      (∀ n : Int, parseIntJs (sreq.amount.getD emptyStr) = some n → n ≤ 0) →
      signAndSend scfg so sreq = (SASResponse.invalidAmount, []) ∧
        SASResponse.status SASResponse.invalidAmount = 400) := by
  constructor
  · obtain ⟨addr, haddr⟩ := Option.isSome_iff_exists.mp hcontract
    refine ⟨?_, rfl⟩
    simp [signPayment, hkey, hver, hfields, hchain, htoken, haddr, hcomm, hbig]
  · intro scfg so sreq hpk hna hf hch htk hct hbad
    obtain ⟨addr, haddr⟩ := Option.isSome_iff_exists.mp hct
    refine ⟨?_, rfl⟩
    cases hp : parseIntJs (sreq.amount.getD emptyStr) with
    | none =>
      by_cases hat : truthyOpt scfg.authToken = true
      · have hmap : Option.map (fun s => replaceFirst s bearerPat) sreq.authorization =
            some (scfg.authToken.getD emptyStr) := by
          by_contra hC
          exact hna ⟨hat, hC⟩
        simp [signAndSend, hpk, hat, hmap, hf, hch, htk, haddr, hp]
      · rw [Bool.not_eq_true] at hat
        simp [signAndSend, hpk, hat, hf, hch, htk, haddr, hp]
    | some n =>
      have hn : n ≤ 0 := hbad n hp
      by_cases hat : truthyOpt scfg.authToken = true
      · have hmap : Option.map (fun s => replaceFirst s bearerPat) sreq.authorization =
            some (scfg.authToken.getD emptyStr) := by
          by_contra hC
          exact hna ⟨hat, hC⟩
        simp [signAndSend, hpk, hat, hmap, hf, hch, htk, haddr, hp, hn]
      · rw [Bool.not_eq_true] at hat
        simp [signAndSend, hpk, hat, hf, hch, htk, haddr, hp, hn]

/-- Witness for `amount_validation_paths` at the concrete malformed
inputs `total_amount = abc` and `amount = abc`. -/
theorem amount_validation_paths_witness :
    (signPayment cfgX true oracleOkX reqBadAmountX =
      (Response.paymentFailed (msgCannotConvertPre ++ badAmountX ++ msgCannotConvertPost), []) ∧
      Response.status
        (Response.paymentFailed (msgCannotConvertPre ++ badAmountX ++ msgCannotConvertPost)) = 500) ∧
    (signAndSend sasCfgX sasOracleX sasReqBadAmountX = (SASResponse.invalidAmount, []) ∧
      SASResponse.status SASResponse.invalidAmount = 400) := by
  have h := amount_validation_paths cfgX true oracleOkX reqBadAmountX
    (by decide) (by decide) (by decide) (by decide) (by decide) (by decide) (by decide) (by decide)
  refine ⟨?_, ?_⟩
  · have h1 := h.1
    simpa [reqBadAmountX] using h1
  · exact h.2 sasCfgX sasOracleX sasReqBadAmountX (by decide) (by decide) (by decide)
      (by decide) (by decide) (by decide) (by decide)

/-- Counterexample to claim C6: in `/sign-payment`, a commission
confirmation wait that rejects with code TIMEOUT is answered with the
generic 500 `Payment failed` — the same status and error label as a
definite on-chain failure (receipt status 0) — not with a distinct
confirmation-timeout category. -/
theorem timeout_reported_as_generic_failure :
    (signPaymentTx usdcBase commAddrX merchAddrX 1000000 (1 / 200) emptyStr oracleTimeoutX).1 =
      Response.paymentFailed msgTimeoutX ∧
    Response.status
      ((signPaymentTx usdcBase commAddrX merchAddrX 1000000 (1 / 200) emptyStr oracleTimeoutX).1)
      = 500 ∧
    Response.errorLabel
        ((signPaymentTx usdcBase commAddrX merchAddrX 1000000 (1 / 200) emptyStr oracleTimeoutX).1) =
      Response.errorLabel
        ((signPaymentTx usdcBase commAddrX merchAddrX 1000000 (1 / 200) emptyStr oracleRevertedX).1) := by
  refine ⟨?_, ?_, ?_⟩ <;> decide

/-- Claim C6 as amended: only `/sign-and-send` reports a confirmation
timeout as the distinct 408 `Transaction timeout` outcome; in
`/sign-payment` a TIMEOUT rejection of either confirmation wait falls
into the generic catch block and is answered 500 `Payment failed`,
the same category as a definite on-chain failure. -/
theorem timeout_outcome_by_endpoint :
    (∀ (tokenAddress commissionAddress merchant_address total_amount : String)
      (totalAmountBN : Int) (rate : ℚ) (o : ChainOracle) (tx1 : String) (e : JsError),
      o.submit1 = SubmitOutcome.ok tx1 → o.confirm1 = ConfirmOutcome.threw e →
      e.code = some codeTimeout →
      (signPaymentTx tokenAddress commissionAddress merchant_address
        totalAmountBN rate total_amount o).1 = Response.paymentFailed e.message) ∧
    (∀ (tokenAddress commissionAddress merchant_address total_amount : String)
      (totalAmountBN : Int) (rate : ℚ) (o : ChainOracle) (tx1 tx2 : String)
      (bn1 g1 : Nat) (e : JsError),
      o.submit1 = SubmitOutcome.ok tx1 → o.confirm1 = ConfirmOutcome.ok 1 bn1 g1 →
      o.submit2 = SubmitOutcome.ok tx2 → o.confirm2 = ConfirmOutcome.threw e →
      e.code = some codeTimeout →
      (signPaymentTx tokenAddress commissionAddress merchant_address
        totalAmountBN rate total_amount o).1 = Response.paymentFailed e.message) ∧
    (∀ (tokenAddress toAddress : String) (amountInt : Int) (so : SASOracle)
      (txh : String) (e : JsError),
      so.submit = SubmitOutcome.ok txh → so.confirm = ConfirmOutcome.threw e →
      e.code = some codeTimeout →
      (signAndSendTx tokenAddress toAddress amountInt so).1 = SASResponse.txTimeout e.message ∧
      SASResponse.status ((signAndSendTx tokenAddress toAddress amountInt so).1) = 408) := by
  refine ⟨?_, ?_, ?_⟩
  · intro ta ca ma ts tot rate o tx1 e h1 hc he
    obtain ⟨s1, c1, s2, c2⟩ := o
    simp only at h1 hc
    subst h1; subst hc
    simp [signPaymentTx, signPaymentCatch, he, codeTimeout_ne_insufficient]
  · intro ta ca ma ts tot rate o tx1 tx2 bn1 g1 e h1 hc1 h2 hc2 he
    obtain ⟨s1, c1, s2, c2⟩ := o
    simp only at h1 hc1 h2 hc2
    subst h1; subst hc1; subst h2; subst hc2
    simp [signPaymentTx, signPaymentCatch, he, codeTimeout_ne_insufficient]
  · intro ta toA n so txh e h1 hc he
    obtain ⟨s1, c1⟩ := so
    simp only at h1 hc
    subst h1; subst hc
    constructor
    · simp [signAndSendTx, signAndSendCatch, he, codeTimeout_ne_insufficient,
        codeTimeout_ne_nonce, codeTimeout_ne_replacement]
    · simp [signAndSendTx, signAndSendCatch, he, codeTimeout_ne_insufficient,
        codeTimeout_ne_nonce, codeTimeout_ne_replacement, SASResponse.status]

/-- Witness for `timeout_outcome_by_endpoint`: a TIMEOUT on the
commission wait yields `Payment failed`, and a TIMEOUT on the v1
confirmation wait yields the 408 `Transaction timeout`. -/
theorem timeout_outcome_by_endpoint_witness :
    (signPaymentTx usdcBase commAddrX merchAddrX 1000000 (1 / 200) emptyStr oracleTimeoutX).1 =
      Response.paymentFailed msgTimeoutX ∧
    (signAndSendTx usdcBase merchAddrX 1000000
        ⟨SubmitOutcome.ok hashCommissionC4,
          ConfirmOutcome.threw ⟨some codeTimeout, msgTimeoutX⟩⟩).1 =
      SASResponse.txTimeout msgTimeoutX := by
  constructor
  · exact timeout_outcome_by_endpoint.1 usdcBase commAddrX merchAddrX emptyStr 1000000
      (1 / 200) oracleTimeoutX hashCommissionC4 ⟨some codeTimeout, msgTimeoutX⟩ rfl rfl rfl
  · exact (timeout_outcome_by_endpoint.2.2 usdcBase merchAddrX 1000000
      ⟨SubmitOutcome.ok hashCommissionC4, ConfirmOutcome.threw ⟨some codeTimeout, msgTimeoutX⟩⟩
      hashCommissionC4 ⟨some codeTimeout, msgTimeoutX⟩ rfl rfl rfl).1

/-- Claim C7: a request carrying an owner credential different from
the configured one is rejected 403 with no chain-client call at all. -/
theorem mismatched_key_forbidden_no_chain_calls (cfg : Config) (identityOk : Bool)
    (o : ChainOracle) (req : SignPaymentRequest) (k : String)
    (hk : req.xApiKey = some k) (hknz : k ≠ "")
    (howner : truthyOpt cfg.ownerApiKey = true)
    (hmis : k ≠ cfg.ownerApiKey.getD emptyStr) :
    signPayment cfg identityOk o req = (Response.forbidden, []) ∧
    Response.status Response.forbidden = 403 := by
  refine ⟨?_, rfl⟩
  have ht : truthyOpt (some k) = true := by
    simpa [truthyOpt] using hknz
  simp [signPayment, hk, ht, verifyOwnerApiKey, howner, hmis]

/-- Witness for `mismatched_key_forbidden_no_chain_calls`. -/
theorem mismatched_key_forbidden_no_chain_calls_witness :
    signPayment cfgX true oracleOkX reqWrongKeyX = (Response.forbidden, []) ∧
    Response.status Response.forbidden = 403 :=
  mismatched_key_forbidden_no_chain_calls cfgX true oracleOkX reqWrongKeyX otherKeyX
    rfl (by decide) (by decide) (by decide)

/-- Claim C8: with no owner credential configured, authorization is
fail-open: `verifyOwnerApiKey` returns true for every supplied
credential, and a request supplying any credential is never answered
with the `Forbidden` rejection. -/
theorem fail_open_without_owner_key (cfg : Config) (identityOk : Bool)
    (o : ChainOracle) (req : SignPaymentRequest)
    (hnone : truthyOpt cfg.ownerApiKey = false) :
    (∀ apiKey : String, verifyOwnerApiKey cfg.ownerApiKey identityOk apiKey = true) ∧
    (truthyOpt req.xApiKey = true →
      (signPayment cfg identityOk o req).1 ≠ Response.forbidden) := by
  constructor
  · intro apiKey
    simp [verifyOwnerApiKey, hnone]
  · intro ht
    have hv : verifyOwnerApiKey cfg.ownerApiKey identityOk (req.xApiKey.getD emptyStr) = true := by
      simp [verifyOwnerApiKey, hnone]
    simp only [signPayment, ht, hv]
    repeat' split
    all_goals simp_all [signPaymentTx_fst_ne_forbidden]

/-- Witness for `fail_open_without_owner_key`: with no owner key, the
request with a non-owner credential is not rejected. -/
theorem fail_open_without_owner_key_witness :
    verifyOwnerApiKey none true otherKeyX = true ∧
    (signPayment ⟨none, some commAddrX, 1 / 200⟩ true oracleOkX reqWrongKeyX).1 ≠
      Response.forbidden := by
  have h := fail_open_without_owner_key ⟨none, some commAddrX, 1 / 200⟩ true oracleOkX
    reqWrongKeyX (by decide)
  exact ⟨h.1 otherKeyX, h.2 (by decide)⟩

/-- Claim C9: on a request that both misses required fields and names
an unsupported chain, the answer is always the 400 missing-fields
response, whose message names the four required fields; the field
presence check precedes the chain membership check. -/
theorem missing_fields_reported_before_chain (cfg : Config) (identityOk : Bool)
    (o : ChainOracle) (req : SignPaymentRequest)
    (hkey : truthyOpt req.xApiKey = true)
    (hver : verifyOwnerApiKey cfg.ownerApiKey identityOk (req.xApiKey.getD emptyStr) = true)
    (hmiss : fieldsPresent req = false)
    (hchain : RPCS_has (req.chain.getD emptyStr) = false) :
    signPayment cfg identityOk o req = (Response.invalidRequest, []) ∧
    Response.message Response.invalidRequest = some msgRequiredFields ∧
    Response.status Response.invalidRequest = 400 := by
  refine ⟨?_, rfl, rfl⟩
  simp [signPayment, hkey, hver, hmiss]

/-- Witness for `missing_fields_reported_before_chain` at a request
missing `merchant_address` and naming the chain `solana`. -/
theorem missing_fields_reported_before_chain_witness :
    signPayment cfgX true oracleOkX reqMissingFieldX = (Response.invalidRequest, []) ∧
    Response.message Response.invalidRequest = some msgRequiredFields ∧
    Response.status Response.invalidRequest = 400 :=
  missing_fields_reported_before_chain cfgX true oracleOkX reqMissingFieldX
    (by decide) (by decide) (by decide) (by decide)

/-- Claim C10: a request without the `x-api-key` header is answered
401 before `verifyOwnerApiKey` is consulted, whatever the
configuration — in particular even when no owner credential is
configured and authorization would be fail-open. No chain call is
made. -/
theorem missing_api_key_gives_401 (cfg : Config) (identityOk : Bool)
    (o : ChainOracle) (req : SignPaymentRequest)
    (h : truthyOpt req.xApiKey = false) :
    signPayment cfg identityOk o req = (Response.unauthorized, []) ∧
    Response.status Response.unauthorized = 401 := by
  refine ⟨?_, rfl⟩
  simp [signPayment, h]

/-- Witness for `missing_api_key_gives_401`, with no owner credential
configured. -/
theorem missing_api_key_gives_401_witness :
    signPayment ⟨none, some commAddrX, 1 / 200⟩ true oracleOkX reqNoKeyX =
      (Response.unauthorized, []) ∧
    Response.status Response.unauthorized = 401 :=
  missing_api_key_gives_401 ⟨none, some commAddrX, 1 / 200⟩ true oracleOkX reqNoKeyX rfl

end AgentGatePay
